import Mathlib

set_option linter.unusedVariables false

/-!
Shallow embedding of the AFLTriage GDB triage core (src/gdb_triage.rs).

Rust strings are modelled at the byte level: a value of type `RStr` is the
list of UTF-8 code units of a Rust `str`/`String`.  This keeps the model
faithful to the source, whose marker extraction works with byte indices
(`str::find`, `str::len`, byte-range slicing) and can panic when a slice
boundary is not a character boundary.
-/

/-- Byte-level model of a Rust string slice: its UTF-8 bytes. -/
abbrev RStr := List Nat

/-- UTF-8 encoding of a single unicode scalar value (Rust `char`). -/
def charUtf8 (c : Char) : List Nat :=
  let n := c.toNat
  if n < 0x80 then [n]
  else if n < 0x800 then [0xC0 + n / 0x40, 0x80 + n % 0x40]
  else if n < 0x10000 then
    [0xE0 + n / 0x1000, 0x80 + (n / 0x40) % 0x40, 0x80 + n % 0x40]
  else
    [0xF0 + n / 0x40000, 0x80 + (n / 0x1000) % 0x40,
     0x80 + (n / 0x40) % 0x40, 0x80 + n % 0x40]

/-- The UTF-8 bytes of a Lean string literal, used to transcribe the Rust
string literals of the source. -/
def strB (s : String) : RStr := s.data.flatMap charUtf8

/-- A UTF-8 continuation byte (0x80..0xBF).  In a valid UTF-8 string these
are exactly the bytes sitting at non-character-boundary positions. -/
def isContByte (b : Nat) : Bool := 0x80 ≤ b && b < 0xC0

/-- Model of Rust `str::is_char_boundary` on the byte list. -/
def isCharBoundary (s : RStr) (i : Nat) : Bool :=
  i = 0 || i = s.length || (decide (i < s.length) && !isContByte (s.getD i 0))

/-- Helper for `strFind`: scan the suffixes of `text`, returning the byte
index of the first position where `pat` is a prefix. -/
def strFindAux (pat : RStr) : RStr → Nat → Option Nat
  | [], i => if pat = [] then some i else none
  | b :: rest, i =>
    if pat.isPrefixOf (b :: rest) then some i else strFindAux pat rest (i + 1)

/-- Model of Rust `str::find` with a string pattern: byte index of the first
occurrence of `pat` in `text`. -/
def strFind (text pat : RStr) : Option Nat := strFindAux pat text 0

/-- The byte range `text[a..b]` of a Rust slice expression (assuming the
bound checks already passed). -/
def sliceBytes (text : RStr) (a b : Nat) : RStr := (text.drop a).take (b - a)

/-- Outcome of running a piece of Rust code that returns
`Result<A, String>` but may also panic (index out of bounds, `unwrap`). -/
inductive RustResult (α : Type) where
  | panicked : RustResult α
  | ok : α → RustResult α
  | err : RStr → RustResult α
deriving DecidableEq

/-- Marker sentinel pair, from `struct DbgMarker`. -/
structure DbgMarker where
  start : RStr
  «end» : RStr
deriving DecidableEq

/-- Transcribes `fn make_marker`. -/
def make_marker (tag : RStr) : DbgMarker :=
  { start := strB "----" ++ tag ++ strB "_START----"
    «end» := strB "----" ++ tag ++ strB "_END----" }

/-- The static `MARKER_CHILD_OUTPUT`. -/
def MARKER_CHILD_OUTPUT : DbgMarker := make_marker (strB "AFLTRIAGE_CHILD_OUTPUT")

/-- The static `MARKER_BACKTRACE`. -/
def MARKER_BACKTRACE : DbgMarker := make_marker (strB "AFLTRIAGE_BACKTRACE")

/-- Transcribes `fn extract_marker`.  `text.find` is modelled by `strFind`;
the Rust slice `&text[start_idx..end_idx]` panics unless both indices are
character boundaries, which the model makes explicit. -/
def extract_marker (text : RStr) (marker : DbgMarker) : RustResult RStr :=
  match strFind text marker.start with
  | some start_idx0 =>
    match strFind text marker.«end» with
    | some end_idx =>
      -- assuming its printed as a newline (comment from the source)
      let start_idx := start_idx0 + marker.start.length + 1
      if start_idx ≤ end_idx then
        if isCharBoundary text start_idx && isCharBoundary text end_idx then
          .ok (sliceBytes text start_idx end_idx)
        else
          .panicked
      else
        .err (strB "Start marker and end marker out-of-order")
    | none => .err (strB "Could not find " ++ marker.«end»)
  | none => .err (strB "Could not find " ++ marker.start)

/-! Crash report model: the `derive(Deserialize)` structs of the source. -/

/-- Transcribes `struct GdbSymbol`.  `line` is an `i64`. -/
structure GdbSymbol where
  function_name : RStr
  mangled_function_name : RStr
  function_signature : RStr
  file : RStr
  line : Int
deriving DecidableEq

/-- Transcribes `struct GdbVariable` (`r#type` is the raw identifier `type`). -/
structure GdbVariable where
  type : RStr
  name : RStr
  value : RStr
deriving DecidableEq

/-- Transcribes `struct GdbFrameInfo`. -/
structure GdbFrameInfo where
  address : Int
  relative_address : Int
  module : RStr
  pretty_address : RStr
  symbol : GdbSymbol
  args : List GdbVariable
  locals : List GdbVariable
deriving DecidableEq

/-- Transcribes `struct GdbThread`.  `tid` is an `i32`. -/
structure GdbThread where
  tid : Int
  backtrace : List GdbFrameInfo
deriving DecidableEq

/-- Transcribes `struct GdbThreadInfo`. -/
structure GdbThreadInfo where
  current_tid : Int
  threads : List GdbThread
deriving DecidableEq

/-- Transcribes `struct GdbChildResult`.  `status_code` is an `i32`. -/
structure GdbChildResult where
  stdout : RStr
  stderr : RStr
  status_code : Int
deriving DecidableEq

/-- Transcribes `struct GdbTriageResult`. -/
structure GdbTriageResult where
  thread_info : GdbThreadInfo
  child : GdbChildResult
deriving DecidableEq

/-! JSON model.  The source consumes `serde_json` as an external primitive;
the spec fixes the wire format (§6): objects with integer and string
fields, arrays, nesting — no floats appear in the schema.  The model below
implements that JSON fragment (integers without exponent or fraction,
strings with the single-character escapes) and the `serde` object-decoding
discipline: a needed field must appear exactly once, unknown fields are
ignored, integer fields are range-checked against the declared width. -/

/-- JSON values, as produced by parsing a wire document. -/
inductive Json where
  | null : Json
  | bool : Bool → Json
  | num : Int → Json
  | str : RStr → Json
  | arr : List Json → Json
  | obj : List (RStr × Json) → Json

/-- JSON insignificant whitespace bytes (space, tab, LF, CR). -/
def jsonWs (b : Nat) : Bool := b = 32 || b = 9 || b = 10 || b = 13

/-- Drop leading JSON whitespace. -/
def skipWs : RStr → RStr
  | [] => []
  | b :: rest => if jsonWs b then skipWs rest else b :: rest

/-- Parse the remainder of a JSON string literal (opening quote already
consumed): returns the decoded contents and the rest of the input. -/
def parseJsonString : Nat → RStr → Option (RStr × RStr)
  | 0, _ => none
  | _, [] => none
  | fuel + 1, b :: rest =>
    if b = 34 then some ([], rest)
    else if b = 92 then
      match rest with
      | [] => none
      | e :: rest2 =>
        let c : Option Nat :=
          if e = 34 then some 34 else if e = 92 then some 92
          else if e = 47 then some 47 else if e = 110 then some 10
          else if e = 116 then some 9 else if e = 114 then some 13
          else if e = 98 then some 8 else if e = 102 then some 12
          else none
        match c with
        | some c => (parseJsonString fuel rest2).map (fun p => (c :: p.1, p.2))
        | none => none
    else if b < 32 then none
    else (parseJsonString fuel rest).map (fun p => (b :: p.1, p.2))

/-- Accumulate decimal digits. -/
def digitsAux : RStr → Nat → Nat × RStr
  | [], acc => (acc, [])
  | b :: rest, acc =>
    if 48 ≤ b && b ≤ 57 then digitsAux rest (acc * 10 + (b - 48))
    else (acc, b :: rest)

/-- Parse a JSON natural-number literal (no leading zeros). -/
def parseJsonNat : RStr → Option (Nat × RStr)
  | [] => none
  | b :: rest =>
    if b = 48 then
      match rest with
      | c :: _ => if 48 ≤ c && c ≤ 57 then none else some (0, rest)
      | [] => some (0, [])
    else if 48 ≤ b && b ≤ 57 then some (digitsAux rest (b - 48))
    else none

/-- Parse a JSON integer literal with optional leading minus. -/
def parseJsonInt : RStr → Option (Int × RStr)
  | 45 :: rest => (parseJsonNat rest).map (fun p => (-(p.1 : Int), p.2))
  | s => (parseJsonNat s).map (fun p => ((p.1 : Int), p.2))

mutual

/-- Parse one JSON value, returning it and the unconsumed input. -/
def parseValue : Nat → RStr → Option (Json × RStr)
  | 0, _ => none
  | fuel + 1, s =>
    match skipWs s with
    | [] => none
    | b :: rest =>
      if b = 110 then
        match rest with
        | 117 :: 108 :: 108 :: r => some (.null, r)
        | _ => none
      else if b = 116 then
        match rest with
        | 114 :: 117 :: 101 :: r => some (.bool true, r)
        | _ => none
      else if b = 102 then
        match rest with
        | 97 :: 108 :: 115 :: 101 :: r => some (.bool false, r)
        | _ => none
      else if b = 34 then
        (parseJsonString rest.length rest).map (fun p => (.str p.1, p.2))
      else if b = 91 then
        match skipWs rest with
        | 93 :: r => some (.arr [], r)
        | s2 => (parseArrayItems fuel s2).map (fun p => (.arr p.1, p.2))
      else if b = 123 then
        match skipWs rest with
        | 125 :: r => some (.obj [], r)
        | s2 => (parseObjectItems fuel s2).map (fun p => (.obj p.1, p.2))
      else
        (parseJsonInt (b :: rest)).map (fun p => (.num p.1, p.2))

/-- Parse the comma-separated items of a non-empty array, up to and
including the closing bracket. -/
def parseArrayItems : Nat → RStr → Option (List Json × RStr)
  | 0, _ => none
  | fuel + 1, s =>
    match parseValue fuel s with
    | none => none
    | some (v, r) =>
      match skipWs r with
      | 44 :: r2 => (parseArrayItems fuel r2).map (fun p => (v :: p.1, p.2))
      | 93 :: r2 => some ([v], r2)
      | _ => none

/-- Parse the members of a non-empty object, up to and including the
closing brace. -/
def parseObjectItems : Nat → RStr → Option (List (RStr × Json) × RStr)
  | 0, _ => none
  | fuel + 1, s =>
    match skipWs s with
    | 34 :: r =>
      match parseJsonString r.length r with
      | none => none
      | some (k, r2) =>
        match skipWs r2 with
        | 58 :: r3 =>
          match parseValue fuel r3 with
          | none => none
          | some (v, r4) =>
            match skipWs r4 with
            | 44 :: r5 => (parseObjectItems fuel r5).map (fun p => ((k, v) :: p.1, p.2))
            | 125 :: r5 => some ([(k, v)], r5)
            | _ => none
        | _ => none
    | _ => none

end

/-- Parse a complete JSON document; trailing whitespace is permitted,
trailing garbage is not (as with `serde_json::from_str`). -/
def jsonParse (s : RStr) : Option Json :=
  match parseValue (2 * s.length + 2) s with
  | some (v, r) => if skipWs r = [] then some v else none
  | none => none

/-- Look up a required field the way a `serde`-derived struct visitor does:
the key must be present exactly once (a duplicate of a required field is a
deserialization error); other keys are ignored. -/
def fieldVal (fs : List (RStr × Json)) (k : RStr) : Option Json :=
  match fs.filter (fun p => decide (p.1 = k)) with
  | [p] => some p.2
  | _ => none

/-- Decode a JSON string field. -/
def decodeStr : Json → Option RStr
  | .str s => some s
  | _ => none

/-- Decode an `i64` field (range-checked as `serde` does). -/
def decodeI64 : Json → Option Int
  | .num n => if -(2 ^ 63) ≤ n ∧ n < 2 ^ 63 then some n else none
  | _ => none

/-- Decode an `i32` field (range-checked as `serde` does). -/
def decodeI32 : Json → Option Int
  | .num n => if -(2 ^ 31) ≤ n ∧ n < 2 ^ 31 then some n else none
  | _ => none

/-- Decode every element of a list, keeping order (the `Vec<T>` visitor). -/
def optMapM {α β : Type} (f : α → Option β) : List α → Option (List β)
  | [] => some []
  | x :: xs =>
    match f x, optMapM f xs with
    | some y, some ys => some (y :: ys)
    | _, _ => none

/-- Decode a JSON array with the given element decoder. -/
def decodeArr {α : Type} (f : Json → Option α) : Json → Option (List α)
  | .arr xs => optMapM f xs
  | _ => none

/-- Field-wise decoder for `GdbVariable`. -/
def decodeVariable (j : Json) : Option GdbVariable :=
  match j with
  | .obj fs => do
    let t ← fieldVal fs (strB "type") >>= decodeStr
    let n ← fieldVal fs (strB "name") >>= decodeStr
    let v ← fieldVal fs (strB "value") >>= decodeStr
    pure ⟨t, n, v⟩
  | _ => none

/-- Field-wise decoder for `GdbSymbol`. -/
def decodeSymbol (j : Json) : Option GdbSymbol :=
  match j with
  | .obj fs => do
    let fn ← fieldVal fs (strB "function_name") >>= decodeStr
    let mfn ← fieldVal fs (strB "mangled_function_name") >>= decodeStr
    let fsig ← fieldVal fs (strB "function_signature") >>= decodeStr
    let file ← fieldVal fs (strB "file") >>= decodeStr
    let line ← fieldVal fs (strB "line") >>= decodeI64
    pure ⟨fn, mfn, fsig, file, line⟩
  | _ => none

/-- Field-wise decoder for `GdbFrameInfo`. -/
def decodeFrame (j : Json) : Option GdbFrameInfo :=
  match j with
  | .obj fs => do
    let addr ← fieldVal fs (strB "address") >>= decodeI64
    let raddr ← fieldVal fs (strB "relative_address") >>= decodeI64
    let m ← fieldVal fs (strB "module") >>= decodeStr
    let pa ← fieldVal fs (strB "pretty_address") >>= decodeStr
    let sym ← fieldVal fs (strB "symbol") >>= decodeSymbol
    let args ← fieldVal fs (strB "args") >>= decodeArr decodeVariable
    let locals ← fieldVal fs (strB "locals") >>= decodeArr decodeVariable
    pure ⟨addr, raddr, m, pa, sym, args, locals⟩
  | _ => none

/-- Field-wise decoder for `GdbThread`. -/
def decodeThread (j : Json) : Option GdbThread :=
  match j with
  | .obj fs => do
    let tid ← fieldVal fs (strB "tid") >>= decodeI32
    let bt ← fieldVal fs (strB "backtrace") >>= decodeArr decodeFrame
    pure ⟨tid, bt⟩
  | _ => none

/-- Field-wise decoder for `GdbThreadInfo`. -/
def decodeThreadInfo (j : Json) : Option GdbThreadInfo :=
  match j with
  | .obj fs => do
    let ctid ← fieldVal fs (strB "current_tid") >>= decodeI32
    let ths ← fieldVal fs (strB "threads") >>= decodeArr decodeThread
    pure ⟨ctid, ths⟩
  | _ => none

/-- Modelled from the spec: `fn parse_response` delegates to
`serde_json::from_str::<GdbThreadInfo>`, an external primitive whose wire
format the spec fixes in §6; the model parses the document and decodes it
field-wise as the derived `Deserialize` does.  Error text of the JSON
library is abstracted to fixed messages. -/
def parse_response (resp : RStr) : Except RStr GdbThreadInfo :=
  match jsonParse resp with
  | none => .error (strB "invalid JSON")
  | some j =>
    match decodeThreadInfo j with
    | none => .error (strB "JSON does not match the expected schema")
    | some info => .ok info

/-! Debugger driver.  The process-execution collaborator
(`process::execute_capture_output`, spec §6) is an external primitive; the
driver functions take it as an argument: a function from the executable
name and argument vector to either a spawn failure message or the captured
output.  Its `stdout`/`stderr` fields hold the text produced by the
permissive decoding (`String::from_utf8_lossy`) of the raw captured bytes. -/

/-- Captured result of one `execute_capture_output` call: decoded stdout
and stderr text plus `status.success()`. -/
structure ExecOutput where
  stdout : RStr
  stderr : RStr
  success : Bool
deriving DecidableEq

/-- Transcribes `enum GdbTriageScript`.  The `Internal` variant's
`NamedTempFile` is represented by the path of the materialized temp file. -/
inductive GdbTriageScript where
  | External : RStr → GdbTriageScript
  | Internal : RStr → GdbTriageScript
deriving DecidableEq

/-- Transcribes `struct GdbTriager`. -/
structure GdbTriager where
  triage_script : GdbTriageScript
  gdb : RStr
deriving DecidableEq

/-- Rust `str::lines().next()`: the first line of a string, if the string
is non-empty (content up to the first LF, with one trailing CR stripped). -/
def linesNext (s : RStr) : Option RStr :=
  match s with
  | [] => none
  | _ =>
    let l := s.takeWhile (fun b => !decide (b = 10))
    some (match l.getLast? with
          | some 13 => l.dropLast
          | _ => l)

/-- The scripted sanity-check command line of `has_supported_gdb`. -/
def gdb_check_args : List RStr :=
  [strB "--nx", strB "--batch", strB "-iex",
   strB "python import gdb, sys; print('V:'+gdb.execute('show version', to_string=True).splitlines()[0]); print('P:'+sys.version.splitlines()[0].strip())"]

/-- The `Some((&stdout[start_idx+2..]).lines().next().unwrap())` pattern of
`has_supported_gdb`: when the two-byte prefix is found, take the first line
after it; `unwrap` panics when no line follows (prefix at end of stdout). -/
def prefixLine (stdout pat : RStr) : RustResult (Option RStr) :=
  match strFind stdout pat with
  | some start_idx =>
    match linesNext (stdout.drop (start_idx + 2)) with
    | none => .panicked
    | some l => .ok (some l)
  | none => .ok none

/-- Transcribes `fn has_supported_gdb`, with the process collaborator
injected.  A spawn failure prints a diagnostic and returns `false`; then
the `V:`/`P:` lines are searched in the decoded stdout, and the check
passes exactly when the exit was successful and both were found. -/
def has_supported_gdb
    (execute_capture_output : RStr → List RStr → Except RStr ExecOutput)
    (self : GdbTriager) : RustResult Bool :=
  match execute_capture_output self.gdb gdb_check_args with
  | .error _ => .ok false
  | .ok output =>
    let decoded_stdout := output.stdout
    match prefixLine decoded_stdout (strB "V:") with
    | .panicked => .panicked
    | .err e => .err e
    | .ok version =>
      match prefixLine decoded_stdout (strB "P:") with
      | .panicked => .panicked
      | .err e => .err e
      | .ok python_version =>
        .ok (!(!output.success || version.isNone || python_version.isNone))

/-- The marker-echo directive `format!("python [x.write('{}\n') ...")` used
when composing the triage command line. -/
def pyEchoBoth (m : RStr) : RStr :=
  strB "python [x.write('" ++ m ++ strB "\\n') for x in [sys.stdout, sys.stderr]]"

/-- The `gdb_args` vector of `triage_testcase` (before the program's own
argument vector is appended after `--args`). -/
def gdb_triage_args (triage_script_path : RStr) : List RStr :=
  [strB "--batch", strB "--nx",
   strB "-iex", strB "set index-cache on",
   strB "-iex", strB "set index-cache directory gdb_cache",
   strB "-ex", pyEchoBoth MARKER_CHILD_OUTPUT.start,
   strB "-ex", strB "set logging file /dev/null",
   strB "-ex", strB "set logging redirect on",
   strB "-ex", strB "set logging on",
   strB "-ex", strB "run",
   strB "-ex", strB "set logging redirect off",
   strB "-ex", strB "set logging off",
   strB "-ex", pyEchoBoth MARKER_CHILD_OUTPUT.«end»,
   strB "-ex", pyEchoBoth MARKER_BACKTRACE.start,
   strB "-x", triage_script_path,
   strB "-ex", pyEchoBoth MARKER_BACKTRACE.«end»,
   strB "--args"]

/-- Transcribes `fn triage_testcase`, with the JSON-parsing step and the
process collaborator injected as functions (the source uses
`self.parse_response` and `process::execute_capture_output`). -/
def triage_testcase_with
    (parse : RStr → Except RStr GdbThreadInfo)
    (execute_capture_output : RStr → List RStr → Except RStr ExecOutput)
    (self : GdbTriager) (prog_args : List RStr) (show_raw_output : Bool) :
    RustResult GdbTriageResult :=
  match self.triage_script with
  | .External _ => .err (strB "Unsupported triage script path")
  | .Internal triage_script_path =>
    let gdb_args := gdb_triage_args triage_script_path
    match execute_capture_output self.gdb (gdb_args ++ prog_args) with
    | .error e => .err (strB "Failed to execute GDB command: " ++ e)
    | .ok output =>
      let decoded_stdout := output.stdout
      let decoded_stderr := output.stderr
      -- show_raw_output only controls a println! of the decoded streams
      match extract_marker decoded_stdout MARKER_CHILD_OUTPUT with
      | .panicked => .panicked
      | .err e => .err (strB "Could not extract child STDOUT: " ++ e)
      | .ok child_output_stdout =>
        match extract_marker decoded_stderr MARKER_CHILD_OUTPUT with
        | .panicked => .panicked
        | .err e => .err (strB "Could not extract child STDERR: " ++ e)
        | .ok child_output_stderr =>
          match extract_marker decoded_stdout MARKER_BACKTRACE with
          | .panicked => .panicked
          | .err e => .err (strB "Failed to get triage JSON from GDB: " ++ e)
          | .ok backtrace_output =>
            match extract_marker decoded_stderr MARKER_BACKTRACE with
            | .panicked => .panicked
            | .err e => .err (strB "Failed to get triage errors from GDB: " ++ e)
            | .ok backtrace_errors =>
              if !backtrace_errors.isEmpty then
                .err (strB "Triage script emitted errors: " ++ backtrace_errors)
              else
                match parse backtrace_output with
                | .ok json =>
                  .ok { thread_info := json,
                        child := { stdout := child_output_stdout,
                                   stderr := child_output_stderr,
                                   status_code := 0 } }
                | .error e =>
                  .err (strB "Failed to parse triage JSON from GDB: " ++ e)

/-- `triage_testcase` with its own `parse_response`. -/
def triage_testcase
    (execute_capture_output : RStr → List RStr → Except RStr ExecOutput)
    (self : GdbTriager) (prog_args : List RStr) (show_raw_output : Bool) :
    RustResult GdbTriageResult :=
  triage_testcase_with parse_response execute_capture_output self prog_args
    show_raw_output

/-! Wire-schema predicates.  Modelled from the spec: §6 fixes the JSON
payload schema (`current_tid: integer`, `threads: array of {tid, backtrace}`,
frames with symbol/args/locals, integer widths per the struct fields).
These predicates state that a parsed document has the declared shape; they
are used to phrase the parsing claims, while the decoding itself is done by
the `decode*` functions above. -/

/-- Field of string shape, present exactly once. -/
def hasStrField (fs : List (RStr × Json)) (k : RStr) : Bool :=
  match fieldVal fs k with
  | some (.str _) => true
  | _ => false

/-- Field of `i64` shape (in-range integer), present exactly once. -/
def hasI64Field (fs : List (RStr × Json)) (k : RStr) : Bool :=
  match fieldVal fs k with
  | some (.num n) => decide (-(2 ^ 63) ≤ n ∧ n < 2 ^ 63)
  | _ => false

/-- Field of `i32` shape (in-range integer), present exactly once. -/
def hasI32Field (fs : List (RStr × Json)) (k : RStr) : Bool :=
  match fieldVal fs k with
  | some (.num n) => decide (-(2 ^ 31) ≤ n ∧ n < 2 ^ 31)
  | _ => false

/-- Array field whose elements all satisfy `p`, present exactly once. -/
def hasArrField (fs : List (RStr × Json)) (k : RStr) (p : Json → Bool) : Bool :=
  match fieldVal fs k with
  | some (.arr xs) => xs.all p
  | _ => false

/-- Schema shape of a wire Variable object. -/
def matchesVariable : Json → Bool
  | .obj fs => hasStrField fs (strB "type") && hasStrField fs (strB "name") &&
      hasStrField fs (strB "value")
  | _ => false

/-- Schema shape of a wire Symbol object. -/
def matchesSymbol : Json → Bool
  | .obj fs => hasStrField fs (strB "function_name") &&
      hasStrField fs (strB "mangled_function_name") &&
      hasStrField fs (strB "function_signature") && hasStrField fs (strB "file") &&
      hasI64Field fs (strB "line")
  | _ => false

/-- Schema shape of a wire Frame object. -/
def matchesFrame : Json → Bool
  | .obj fs => hasI64Field fs (strB "address") && hasI64Field fs (strB "relative_address") &&
      hasStrField fs (strB "module") && hasStrField fs (strB "pretty_address") &&
      (match fieldVal fs (strB "symbol") with
       | some js => matchesSymbol js
       | none => false) &&
      hasArrField fs (strB "args") matchesVariable &&
      hasArrField fs (strB "locals") matchesVariable
  | _ => false

/-- Schema shape of a wire Thread object. -/
def matchesThread : Json → Bool
  | .obj fs => hasI32Field fs (strB "tid") && hasArrField fs (strB "backtrace") matchesFrame
  | _ => false

/-- Schema shape of the top-level wire ThreadInfo object. -/
def matchesThreadInfo : Json → Bool
  | .obj fs => hasI32Field fs (strB "current_tid") &&
      hasArrField fs (strB "threads") matchesThread
  | _ => false

/-- The `tid` integer recorded in a thread object of the document. -/
def docTid (jt : Json) : Int :=
  match jt with
  | .obj fs =>
    match fieldVal fs (strB "tid") with
    | some (.num n) => n
    | _ => 0
  | _ => 0

/-- The top-level `current_tid` integer of the document. -/
def docCurrentTid (j : Json) : Int :=
  match j with
  | .obj fs =>
    match fieldVal fs (strB "current_tid") with
    | some (.num n) => n
    | _ => 0
  | _ => 0

/-- The `threads` array of the document. -/
def docThreads (j : Json) : List Json :=
  match j with
  | .obj fs =>
    match fieldVal fs (strB "threads") with
    | some (.arr xs) => xs
    | _ => []
  | _ => []

/-! Concrete captured streams used by the scenario theorems. -/

/-- Decoded debugger stdout of the end-to-end scenario of spec §8: child
output `hello` and a minimal one-thread JSON payload, each bracketed by
its marker pair printed on its own line. -/
def sampleStdout : RStr :=
  strB "----AFLTRIAGE_CHILD_OUTPUT_START----\nhello\n----AFLTRIAGE_CHILD_OUTPUT_END----\n----AFLTRIAGE_BACKTRACE_START----\n\x7b\"current_tid\":1,\"threads\":[\x7b\"tid\":1,\"backtrace\":[]\x7d]\x7d\n----AFLTRIAGE_BACKTRACE_END----\n"

/-- Decoded debugger stderr of the end-to-end scenario: all four markers
with empty payloads. -/
def sampleStderr : RStr :=
  strB "----AFLTRIAGE_CHILD_OUTPUT_START----\n----AFLTRIAGE_CHILD_OUTPUT_END----\n----AFLTRIAGE_BACKTRACE_START----\n----AFLTRIAGE_BACKTRACE_END----\n"

/-- Decoded debugger stderr whose backtrace slice carries the script
error text `oops`. -/
def sampleStderrErrs : RStr :=
  strB "----AFLTRIAGE_CHILD_OUTPUT_START----\n----AFLTRIAGE_CHILD_OUTPUT_END----\n----AFLTRIAGE_BACKTRACE_START----\noops----AFLTRIAGE_BACKTRACE_END----\n"

/-- A schema-conforming document whose `current_tid` matches no thread. -/
def doc7bad : RStr :=
  strB "\x7b\"current_tid\":2,\"threads\":[\x7b\"tid\":1,\"backtrace\":[]\x7d]\x7d"

/-- A schema-conforming document whose `current_tid` matches exactly one
thread. -/
def doc7ok : RStr :=
  strB "\x7b\"current_tid\":1,\"threads\":[\x7b\"tid\":1,\"backtrace\":[]\x7d]\x7d"

/-! Helper lemmas. -/

/-- A pattern occurs at position 0 of any text it prefixes. -/
theorem strFind_append_self (pat rest : RStr) : strFind (pat ++ rest) pat = some 0 := by
  unfold strFind
  cases pat with
  | nil => cases rest <;> simp [strFindAux]
  | cons b bs =>
    rw [List.cons_append]
    unfold strFindAux
    rw [if_pos]
    exact List.isPrefixOf_iff_prefix.mpr
      (by rw [← List.cons_append]; exact List.prefix_append _ _)

/-- Successful-extraction skeleton for `extract_marker`. -/
theorem extract_marker_exact (text : RStr) (m : DbgMarker) (P : RStr)
    (hfS : strFind text m.start = some 0)
    (hfE : strFind text m.«end» = some (m.start.length + 1 + P.length))
    (hb1 : isCharBoundary text (m.start.length + 1) = true)
    (hb2 : isCharBoundary text (m.start.length + 1 + P.length) = true)
    (hsl : sliceBytes text (m.start.length + 1) (m.start.length + 1 + P.length) = P) :
    extract_marker text m = .ok P := by
  simp only [extract_marker, hfS, hfE, Nat.zero_add]
  simp [hb1, hb2, hsl]

/-- Core of the amended round-trip property, for an arbitrary sentinel pair
whose end sentinel starts with a dash. -/
theorem extract_marker_roundtrip_core (S E P : RStr) (t : RStr) (hE45 : E = 45 :: t)
    (hfirst : strFind (S ++ [10] ++ P ++ E) E = some (S.length + 1 + P.length))
    (hP : isContByte ((P ++ E).getD 0 0) = false) :
    extract_marker (S ++ [10] ++ P ++ E) ⟨S, E⟩ = .ok P := by
  have hElen : 0 < E.length := by rw [hE45]; simp
  have hlenS : (S ++ [10]).length = S.length + 1 := by simp
  have hlenSP : ((S ++ [10]) ++ P).length = S.length + 1 + P.length := by simp; omega
  have hassoc1 : S ++ [10] ++ P ++ E = (S ++ [10]) ++ (P ++ E) := by
    simp [List.append_assoc]
  have hlen : (S ++ [10] ++ P ++ E).length = S.length + 1 + P.length + E.length := by
    simp; omega
  have hfS : strFind (S ++ [10] ++ P ++ E) S = some 0 := by
    rw [List.append_assoc, List.append_assoc]
    exact strFind_append_self _ _
  have hb1 : isCharBoundary (S ++ [10] ++ P ++ E) (S.length + 1) = true := by
    unfold isCharBoundary
    have hget : (S ++ [10] ++ P ++ E).getD (S.length + 1) 0 = (P ++ E).getD 0 0 := by
      rw [hassoc1, List.getD_append_right _ _ _ _ (by omega), hlenS]
      simp
    have hlt : S.length + 1 < (S ++ [10] ++ P ++ E).length := by rw [hlen]; omega
    rw [hget]
    simp only [Bool.or_eq_true, Bool.and_eq_true, Bool.not_eq_true', decide_eq_true_eq]
    exact Or.inr ⟨hlt, hP⟩
  have hb2 : isCharBoundary (S ++ [10] ++ P ++ E) (S.length + 1 + P.length) = true := by
    unfold isCharBoundary
    have hget : (S ++ [10] ++ P ++ E).getD (S.length + 1 + P.length) 0 = E.getD 0 0 := by
      rw [List.getD_append_right _ _ _ _ (by rw [hlenSP])]
      rw [hlenSP]
      simp
    have hlt : S.length + 1 + P.length < (S ++ [10] ++ P ++ E).length := by
      rw [hlen]; omega
    have hgetE : E.getD 0 0 = 45 := by rw [hE45]; rfl
    rw [hget, hgetE]
    simp only [Bool.or_eq_true, Bool.and_eq_true, Bool.not_eq_true', decide_eq_true_eq]
    exact Or.inr ⟨hlt, by decide⟩
  have hsl : sliceBytes (S ++ [10] ++ P ++ E) (S.length + 1) (S.length + 1 + P.length) = P := by
    unfold sliceBytes
    rw [hassoc1, ← hlenS, List.drop_left]
    have harith : (S ++ [10]).length + P.length - (S ++ [10]).length = P.length := by
      omega
    rw [harith, List.take_left]
  exact extract_marker_exact _ _ _ hfS hfirst hb1 hb2 hsl

/-- The not-found message never coincides with the out-of-order message. -/
theorem could_not_find_ne (s : RStr) :
    strB "Could not find " ++ s ≠ strB "Start marker and end marker out-of-order" := by
  intro h
  have h2 : (strB "Could not find " ++ s).headD 0 =
      (strB "Start marker and end marker out-of-order").headD 0 := by rw [h]
  have h3 : (67 : Nat) = 83 := h2
  exact absurd h3 (by decide)

theorem hasStrField_spec {fs : List (RStr × Json)} {k : RStr}
    (h : hasStrField fs k = true) : ∃ s, fieldVal fs k = some (Json.str s) := by
  unfold hasStrField at h
  split at h
  · rename_i s heq
    exact ⟨s, heq⟩
  · simp at h

theorem hasI64Field_spec {fs : List (RStr × Json)} {k : RStr}
    (h : hasI64Field fs k = true) :
    ∃ n, fieldVal fs k = some (Json.num n) ∧ decodeI64 (Json.num n) = some n := by
  unfold hasI64Field at h
  split at h
  · rename_i n heq
    exact ⟨n, heq, by simp only [decodeI64, if_pos (of_decide_eq_true h)]⟩
  · simp at h

theorem hasI32Field_spec {fs : List (RStr × Json)} {k : RStr}
    (h : hasI32Field fs k = true) :
    ∃ n, fieldVal fs k = some (Json.num n) ∧ decodeI32 (Json.num n) = some n := by
  unfold hasI32Field at h
  split at h
  · rename_i n heq
    exact ⟨n, heq, by simp only [decodeI32, if_pos (of_decide_eq_true h)]⟩
  · simp at h

theorem hasArrField_spec {fs : List (RStr × Json)} {k : RStr} {p : Json → Bool}
    (h : hasArrField fs k p = true) :
    ∃ xs, fieldVal fs k = some (Json.arr xs) ∧ ∀ x ∈ xs, p x = true := by
  unfold hasArrField at h
  split at h
  · rename_i xs heq
    exact ⟨xs, heq, by simpa [List.all_eq_true] using h⟩
  · simp at h

/-- Pointwise-successful decoding of a list succeeds and commutes with a
projection. -/
theorem optMapM_spec {α β γ : Type} (f : α → Option β) (g : β → γ) (pr : α → γ)
    (xs : List α) (H : ∀ x ∈ xs, ∃ y, f x = some y ∧ g y = pr x) :
    ∃ ys, optMapM f xs = some ys ∧ ys.map g = xs.map pr := by
  induction xs with
  | nil => exact ⟨[], rfl, rfl⟩
  | cons x xs ih =>
    obtain ⟨y, hy, hgy⟩ := H x (by simp)
    obtain ⟨ys, hys, hmap⟩ := ih (fun a ha => H a (by simp [ha]))
    exact ⟨y :: ys, by simp [optMapM, hy, hys], by simp [hmap, hgy]⟩

theorem optMapM_isSome {α β : Type} (f : α → Option β) (xs : List α)
    (H : ∀ x ∈ xs, ∃ y, f x = some y) : ∃ ys, optMapM f xs = some ys := by
  obtain ⟨ys, h1, _⟩ := optMapM_spec f (fun _ => ()) (fun _ => ()) xs
    (fun x hx => (H x hx).elim (fun y hy => ⟨y, hy, rfl⟩))
  exact ⟨ys, h1⟩

theorem decodeVariable_spec {jv : Json} (h : matchesVariable jv = true) :
    ∃ v, decodeVariable jv = some v := by
  cases jv <;> simp [matchesVariable] at h
  rename_i fs
  obtain ⟨⟨ht, hn⟩, hv⟩ := h
  obtain ⟨s1, h1⟩ := hasStrField_spec ht
  obtain ⟨s2, h2⟩ := hasStrField_spec hn
  obtain ⟨s3, h3⟩ := hasStrField_spec hv
  exact ⟨⟨s1, s2, s3⟩, by simp [decodeVariable, h1, h2, h3, decodeStr]⟩

theorem decodeSymbol_spec {js : Json} (h : matchesSymbol js = true) :
    ∃ v, decodeSymbol js = some v := by
  cases js <;> simp [matchesSymbol] at h
  rename_i fs
  obtain ⟨⟨⟨⟨hfn, hmfn⟩, hsig⟩, hfile⟩, hline⟩ := h
  obtain ⟨s1, h1⟩ := hasStrField_spec hfn
  obtain ⟨s2, h2⟩ := hasStrField_spec hmfn
  obtain ⟨s3, h3⟩ := hasStrField_spec hsig
  obtain ⟨s4, h4⟩ := hasStrField_spec hfile
  obtain ⟨n, h5, h5d⟩ := hasI64Field_spec hline
  exact ⟨⟨s1, s2, s3, s4, n⟩, by simp [decodeSymbol, h1, h2, h3, h4, h5, h5d, decodeStr]⟩

theorem decodeFrame_spec {jf : Json} (h : matchesFrame jf = true) :
    ∃ v, decodeFrame jf = some v := by
  cases jf <;> simp [matchesFrame] at h
  rename_i fs
  obtain ⟨⟨⟨⟨⟨⟨haddr, hraddr⟩, hmod⟩, hpa⟩, hsym⟩, hargs⟩, hlocals⟩ := h
  obtain ⟨n1, h1, h1d⟩ := hasI64Field_spec haddr
  obtain ⟨n2, h2, h2d⟩ := hasI64Field_spec hraddr
  obtain ⟨s1, h3⟩ := hasStrField_spec hmod
  obtain ⟨s2, h4⟩ := hasStrField_spec hpa
  have hsym2 : ∃ js, fieldVal fs (strB "symbol") = some js ∧ matchesSymbol js = true := by
    revert hsym
    match fieldVal fs (strB "symbol") with
    | some js => exact fun hs => ⟨js, rfl, hs⟩
    | none => simp
  obtain ⟨js, h5, hjs⟩ := hsym2
  obtain ⟨sym, h5d⟩ := decodeSymbol_spec hjs
  obtain ⟨xs1, h6, hxs1⟩ := hasArrField_spec hargs
  obtain ⟨vs1, h6d⟩ := optMapM_isSome decodeVariable xs1
    (fun x hx => decodeVariable_spec (hxs1 x hx))
  obtain ⟨xs2, h7, hxs2⟩ := hasArrField_spec hlocals
  obtain ⟨vs2, h7d⟩ := optMapM_isSome decodeVariable xs2
    (fun x hx => decodeVariable_spec (hxs2 x hx))
  exact ⟨⟨n1, n2, s1, s2, sym, vs1, vs2⟩,
    by simp [decodeFrame, h1, h1d, h2, h2d, h3, h4, h5, h5d, h6, h6d, h7, h7d,
      decodeStr, decodeArr]⟩

theorem decodeThread_spec {jt : Json} (h : matchesThread jt = true) :
    ∃ th, decodeThread jt = some th ∧ th.tid = docTid jt := by
  cases jt <;> simp [matchesThread] at h
  rename_i fs
  obtain ⟨htid, hbt⟩ := h
  obtain ⟨n, h1, h1d⟩ := hasI32Field_spec htid
  obtain ⟨xs, h2, hxs⟩ := hasArrField_spec hbt
  obtain ⟨frames, h2d⟩ := optMapM_isSome decodeFrame xs
    (fun x hx => decodeFrame_spec (hxs x hx))
  refine ⟨⟨n, frames⟩, by simp [decodeThread, h1, h1d, h2, h2d, decodeArr], ?_⟩
  simp [docTid, h1]

theorem decodeThreadInfo_spec {j : Json} (h : matchesThreadInfo j = true) :
    ∃ info, decodeThreadInfo j = some info ∧ info.current_tid = docCurrentTid j ∧
      info.threads.map GdbThread.tid = (docThreads j).map docTid := by
  cases j <;> simp [matchesThreadInfo] at h
  rename_i fs
  obtain ⟨hctid, hths⟩ := h
  obtain ⟨n, h1, h1d⟩ := hasI32Field_spec hctid
  obtain ⟨xs, h2, hxs⟩ := hasArrField_spec hths
  obtain ⟨ths, h2d, hmap⟩ := optMapM_spec decodeThread GdbThread.tid docTid xs
    (fun x hx => decodeThread_spec (hxs x hx))
  refine ⟨⟨n, ths⟩, by simp [decodeThreadInfo, h1, h1d, h2, h2d, decodeArr], ?_, ?_⟩
  · simp [docCurrentTid, h1]
  · simp [docThreads, h2]
    exact hmap

/-- Counting matching tids transfers along an equal tid projection list. -/
theorem countP_tid_transfer (l : List GdbThread) (jl : List Json) (c : Int)
    (h : l.map GdbThread.tid = jl.map docTid) :
    l.countP (fun th => th.tid == c) = jl.countP (fun jt => docTid jt == c) := by
  induction l generalizing jl with
  | nil =>
    cases jl with
    | nil => rfl
    | cons y ys => simp at h
  | cons x xs ih =>
    cases jl with
    | nil => simp at h
    | cons y ys =>
      simp only [List.map_cons, List.cons.injEq] at h
      obtain ⟨h1, h2⟩ := h
      simp [List.countP_cons, ih ys h2, h1]

/-! Claim theorems. -/

/-- C1 (counterexample): the round-trip claim fails as stated.  The payload
`----AFLTRIAGE_BACKTRACE_END` contains neither sentinel of the backtrace
marker, yet `extract_marker` on `start + LF + payload + end` returns the
empty payload, not the original one: the payload's tail combines with the
first dashes of the appended end sentinel to form an earlier end-sentinel
occurrence. -/
theorem C1_roundtrip_counterexample :
    strFind (strB "----AFLTRIAGE_BACKTRACE_END")
      (make_marker (strB "AFLTRIAGE_BACKTRACE")).start = none ∧
    strFind (strB "----AFLTRIAGE_BACKTRACE_END")
      (make_marker (strB "AFLTRIAGE_BACKTRACE")).«end» = none ∧
    extract_marker ((make_marker (strB "AFLTRIAGE_BACKTRACE")).start ++ strB "\n" ++
        strB "----AFLTRIAGE_BACKTRACE_END" ++ (make_marker (strB "AFLTRIAGE_BACKTRACE")).«end»)
      (make_marker (strB "AFLTRIAGE_BACKTRACE")) = .ok (strB "") ∧
    extract_marker ((make_marker (strB "AFLTRIAGE_BACKTRACE")).start ++ strB "\n" ++
        strB "----AFLTRIAGE_BACKTRACE_END" ++ (make_marker (strB "AFLTRIAGE_BACKTRACE")).«end»)
      (make_marker (strB "AFLTRIAGE_BACKTRACE")) ≠
      .ok (strB "----AFLTRIAGE_BACKTRACE_END") := by decide

/-- C1 (amended): for every marker produced by `make_marker` and payload
`P` that contains neither sentinel, such that additionally the first
occurrence of the end sentinel in `start + LF + P + end` is the appended
final one (no occurrence straddles the payload boundary) and `P` does not
begin with a UTF-8 continuation byte, `extract_marker` returns exactly
`Ok(P)` with no trimming or reformatting. -/
theorem C1_roundtrip_amended (tag P : RStr)
    (hns : strFind P (make_marker tag).start = none)
    (hne : strFind P (make_marker tag).«end» = none)
    (hfirst : strFind ((make_marker tag).start ++ strB "\n" ++ P ++ (make_marker tag).«end»)
        (make_marker tag).«end» =
        some ((make_marker tag).start.length + 1 + P.length))
    (hP : isContByte ((P ++ (make_marker tag).«end»).getD 0 0) = false) :
    extract_marker ((make_marker tag).start ++ strB "\n" ++ P ++ (make_marker tag).«end»)
      (make_marker tag) = .ok P :=
  extract_marker_roundtrip_core (make_marker tag).start (make_marker tag).«end» P
    ((45 :: 45 :: 45 :: tag) ++ strB "_END----") rfl hfirst hP

/-- C1 (witness): the amended round-trip at the backtrace marker and the
payload `payload`. -/
theorem C1_roundtrip_amended_witness :
    extract_marker ((make_marker (strB "AFLTRIAGE_BACKTRACE")).start ++ strB "\n" ++
        strB "payload" ++ (make_marker (strB "AFLTRIAGE_BACKTRACE")).«end»)
      (make_marker (strB "AFLTRIAGE_BACKTRACE")) = .ok (strB "payload") :=
  C1_roundtrip_amended (strB "AFLTRIAGE_BACKTRACE") (strB "payload") (by decide) (by decide)
    (by decide) (by decide)

/-- C2: `extract_marker` fails with the message naming the start sentinel
when the start sentinel is absent; with the message naming the end
sentinel when the start sentinel occurs but the end sentinel is absent;
and with the out-of-order message exactly when both sentinels occur but
the computed payload start offset (first start occurrence + start length
+ 1) exceeds the index of the first end occurrence. -/
theorem C2_extract_marker_errors (text : RStr) (marker : DbgMarker) :
    (strFind text marker.start = none →
      extract_marker text marker = .err (strB "Could not find " ++ marker.start)) ∧
    (strFind text marker.start ≠ none → strFind text marker.«end» = none →
      extract_marker text marker = .err (strB "Could not find " ++ marker.«end»)) ∧
    (extract_marker text marker = .err (strB "Start marker and end marker out-of-order") ↔
      ∃ i j, strFind text marker.start = some i ∧ strFind text marker.«end» = some j ∧
        j < i + marker.start.length + 1) := by
  refine ⟨fun h => by simp [extract_marker, h], fun h1 h2 => ?_, ?_⟩
  · obtain ⟨i, hi⟩ := Option.ne_none_iff_exists'.mp h1
    simp [extract_marker, hi, h2]
  constructor
  · intro h
    cases hs : strFind text marker.start with
    | none =>
      simp only [extract_marker, hs] at h
      rw [RustResult.err.injEq] at h
      exact absurd h (could_not_find_ne _)
    | some i =>
      cases he : strFind text marker.«end» with
      | none =>
        simp only [extract_marker, hs, he] at h
        rw [RustResult.err.injEq] at h
        exact absurd h (could_not_find_ne _)
      | some j =>
        simp only [extract_marker, hs, he] at h
        split at h
        · split at h
          · exact RustResult.noConfusion h
          · exact RustResult.noConfusion h
        · rename_i hcond
          exact ⟨i, j, rfl, rfl, by omega⟩
  · rintro ⟨i, j, hi, hj, hlt⟩
    simp only [extract_marker, hi, hj]
    rw [if_neg (by omega)]

/-- C2 (witness): the three failure shapes at concrete inputs: no start
sentinel; start without end; end sentinel occurring before the start. -/
theorem C2_extract_marker_errors_witness :
    extract_marker (strB "abc") MARKER_BACKTRACE =
      .err (strB "Could not find " ++ MARKER_BACKTRACE.start) ∧
    extract_marker (strB "----AFLTRIAGE_BACKTRACE_START----") MARKER_BACKTRACE =
      .err (strB "Could not find " ++ MARKER_BACKTRACE.«end») ∧
    extract_marker (strB "----AFLTRIAGE_BACKTRACE_END----x----AFLTRIAGE_BACKTRACE_START----")
        MARKER_BACKTRACE =
      .err (strB "Start marker and end marker out-of-order") :=
  ⟨(C2_extract_marker_errors _ _).1 (by decide),
   (C2_extract_marker_errors _ _).2.1 (by decide) (by decide),
   (C2_extract_marker_errors _ _).2.2.mpr ⟨32, 0, by decide, by decide, by decide⟩⟩

/-- C3: whenever all four marker extractions succeed and the backtrace
slice of stderr is non-empty, `triage_testcase` fails with the triage
script error carrying that stderr text verbatim, and the result does not
depend on the JSON parsing function, which is never invoked. -/
theorem C3_script_errors_short_circuit (parse : RStr → Except RStr GdbThreadInfo)
    (execute_capture_output : RStr → List RStr → Except RStr ExecOutput)
    (path gdbName : RStr) (prog_args : List RStr) (show_raw_output : Bool)
    (output : ExecOutput) (a b c d : RStr)
    (hexec : execute_capture_output gdbName (gdb_triage_args path ++ prog_args) = .ok output)
    (h1 : extract_marker output.stdout MARKER_CHILD_OUTPUT = .ok a)
    (h2 : extract_marker output.stderr MARKER_CHILD_OUTPUT = .ok b)
    (h3 : extract_marker output.stdout MARKER_BACKTRACE = .ok c)
    (h4 : extract_marker output.stderr MARKER_BACKTRACE = .ok d)
    (h5 : d ≠ []) :
    triage_testcase_with parse execute_capture_output ⟨.Internal path, gdbName⟩ prog_args
        show_raw_output = .err (strB "Triage script emitted errors: " ++ d) := by
  have h5e : d.isEmpty = false := by
    cases d with
    | nil => exact absurd rfl h5
    | cons x xs => rfl
  simp [triage_testcase_with, hexec, h1, h2, h3, h4, h5e]

set_option maxRecDepth 100000 in
/-- C3 (witness): a concrete captured run whose backtrace-stderr slice is
`oops` fails with the script error, for the driver's own parser. -/
theorem C3_script_errors_short_circuit_witness :
    triage_testcase_with parse_response
      (fun _ _ => .ok ⟨sampleStdout, sampleStderrErrs, true⟩)
      ⟨.Internal (strB "/tmp/triage.py"), strB "gdb"⟩ [strB "./prog"] false =
      .err (strB "Triage script emitted errors: " ++ strB "oops") :=
  C3_script_errors_short_circuit parse_response
    (fun _ _ => .ok ⟨sampleStdout, sampleStderrErrs, true⟩)
    (strB "/tmp/triage.py") (strB "gdb") [strB "./prog"] false
    ⟨sampleStdout, sampleStderrErrs, true⟩
    (strB "hello\n") (strB "")
    (strB "\x7b\"current_tid\":1,\"threads\":[\x7b\"tid\":1,\"backtrace\":[]\x7d]\x7d\n")
    (strB "oops")
    rfl (by decide) (by decide) (by decide) (by decide) (by decide)

set_option maxRecDepth 100000 in
/-- C4: the end-to-end scenario of spec §8: with the sample stdout
carrying `hello` between the child-output markers and a one-thread JSON
document between the backtrace markers, and the sample stderr carrying all
four markers with empty payloads, `triage_testcase` succeeds with
`child.stdout = "hello\n"`, a single thread with `tid = 1` and an empty
backtrace (and empty child stderr, placeholder status 0). -/
theorem C4_end_to_end_scenario :
    triage_testcase (fun _ _ => .ok ⟨sampleStdout, sampleStderr, true⟩)
      ⟨.Internal (strB "/tmp/triage.py"), strB "gdb"⟩ [strB "./prog"] false =
    .ok ⟨⟨1, [⟨1, []⟩]⟩, ⟨strB "hello\n", strB "", 0⟩⟩ := by decide

/-- C5: refuted as stated — `has_supported_gdb` does not always return a
boolean: when the captured stdout ends immediately after a `V:` prefix
occurrence (here stdout is exactly `V:`), the `lines().next().unwrap()`
call panics on `None`, even though the exit status was successful. -/
theorem C5_sanity_check_panics_on_failing_input :
    has_supported_gdb (fun _ _ => .ok ⟨strB "V:", strB "", true⟩)
      ⟨.Internal (strB "/tmp/triage.py"), strB "gdb"⟩ = .panicked := by decide

/-- C6: refuted as stated — `extract_marker` is not total on valid UTF-8
text: when the byte following the start sentinel is part of a multi-byte
character (here `é` directly follows the child-output start sentinel), the
computed payload start offset is not a character boundary and the slice
`&text[start_idx..end_idx]` panics. -/
theorem C6_extract_marker_panics_on_failing_input :
    extract_marker (MARKER_CHILD_OUTPUT.start ++ strB "é" ++ MARKER_CHILD_OUTPUT.«end»)
      MARKER_CHILD_OUTPUT = .panicked := by decide

/-- C7 (counterexample): a document matching the wire schema whose
`current_tid` (2) differs from the only thread tid (1): `parse_response`
succeeds but `current_tid` equals the tid of zero elements, not exactly
one. -/
theorem C7_current_tid_counterexample :
    matchesThreadInfo ((jsonParse doc7bad).getD .null) = true ∧
    parse_response doc7bad = .ok ⟨2, [⟨1, []⟩]⟩ ∧
    (⟨2, [⟨1, []⟩]⟩ : GdbThreadInfo).threads.countP
      (fun th => th.tid == (⟨2, [⟨1, []⟩]⟩ : GdbThreadInfo).current_tid) = 0 :=
  ⟨by decide, rfl, by decide⟩

/-- C7 (amended): for every well-formed JSON document matching the wire
schema in which the `current_tid` field equals the `tid` of exactly one
element of the `threads` array, `parse_response` yields a `GdbThreadInfo`
whose `current_tid` equals the tid of exactly one element of its threads
list; the parser itself does not enforce that invariant. -/
theorem C7_current_tid_amended (s : RStr) (j : Json)
    (hparse : jsonParse s = some j)
    (hmatch : matchesThreadInfo j = true)
    (hone : (docThreads j).countP (fun jt => docTid jt == docCurrentTid j) = 1) :
    ∃ info, parse_response s = .ok info ∧
      info.threads.countP (fun th => th.tid == info.current_tid) = 1 := by
  obtain ⟨info, hdec, hctid, hmap⟩ := decodeThreadInfo_spec hmatch
  refine ⟨info, by simp [parse_response, hparse, hdec], ?_⟩
  rw [countP_tid_transfer info.threads (docThreads j) info.current_tid hmap, hctid]
  exact hone

/-- C7 (witness): the amended parsing invariant at a concrete conforming
document with one matching thread. -/
theorem C7_current_tid_amended_witness :
    ∃ info, parse_response doc7ok = .ok info ∧
      info.threads.countP (fun th => th.tid == info.current_tid) = 1 :=
  C7_current_tid_amended doc7ok
    (.obj [(strB "current_tid", .num 1),
           (strB "threads", .arr [.obj [(strB "tid", .num 1), (strB "backtrace", .arr [])]])])
    rfl (by decide) (by decide)

/-- C8 (counterexample): the substring half of the claim fails for
arbitrary distinct tags: with `t1 = A` and `t2 = A_START----B----A`, the
start sentinel of `t1` is a (prefix) substring of the start sentinel of
`t2`. -/
theorem C8_marker_collision_counterexample :
    strB "A" ≠ strB "A_START----B----A" ∧
    strFind (make_marker (strB "A_START----B----A")).start
      (make_marker (strB "A")).start = some 0 := by decide

/-- C8 (amended): distinct tags always give distinct start sentinels, and
for the two tags actually used by the program the two start sentinels are
not substrings of each other. -/
theorem C8_marker_distinctness_amended :
    (∀ t1 t2 : RStr, t1 ≠ t2 → (make_marker t1).start ≠ (make_marker t2).start) ∧
    strFind (make_marker (strB "AFLTRIAGE_CHILD_OUTPUT")).start
      (make_marker (strB "AFLTRIAGE_BACKTRACE")).start = none ∧
    strFind (make_marker (strB "AFLTRIAGE_BACKTRACE")).start
      (make_marker (strB "AFLTRIAGE_CHILD_OUTPUT")).start = none := by
  refine ⟨?_, by decide, by decide⟩
  intro t1 t2 hne heq
  simp only [make_marker] at heq
  exact hne (List.append_cancel_left (List.append_cancel_right heq))

/-- C8 (witness): injectivity of start sentinels at the distinct tags `A`
and `B`. -/
theorem C8_marker_distinctness_amended_witness :
    (make_marker (strB "A")).start ≠ (make_marker (strB "B")).start :=
  C8_marker_distinctness_amended.1 (strB "A") (strB "B") (by decide)

/-- C9: with the `External` script variant, `triage_testcase` returns the
unsupported-script-path error for every process collaborator (so before
any debugger invocation), every external path, every argument vector and
every raw-output flag. -/
theorem C9_external_script_unsupported
    (execute_capture_output : RStr → List RStr → Except RStr ExecOutput)
    (path gdbName : RStr) (prog_args : List RStr) (show_raw_output : Bool) :
    triage_testcase execute_capture_output ⟨.External path, gdbName⟩ prog_args
      show_raw_output = .err (strB "Unsupported triage script path") := rfl

/-- C10: every successful `triage_testcase` result carries the hardcoded
placeholder `status_code = 0` in its child result, for every parser,
process collaborator and input. -/
theorem C10_status_code_placeholder (parse : RStr → Except RStr GdbThreadInfo)
    (execute_capture_output : RStr → List RStr → Except RStr ExecOutput)
    (self : GdbTriager) (prog_args : List RStr) (show_raw_output : Bool)
    (r : GdbTriageResult)
    (h : triage_testcase_with parse execute_capture_output self prog_args
        show_raw_output = .ok r) :
    r.child.status_code = 0 := by
  simp only [triage_testcase_with] at h
  cases hs : self.triage_script with
  | External p =>
    rw [hs] at h; try simp only [] at h
    exact RustResult.noConfusion h
  | Internal p =>
    rw [hs] at h; try simp only [] at h
    cases hx : execute_capture_output self.gdb (gdb_triage_args p ++ prog_args) with
    | error e =>
      rw [hx] at h; try simp only [] at h
      exact RustResult.noConfusion h
    | ok output =>
      rw [hx] at h; try simp only [] at h
      cases e1 : extract_marker output.stdout MARKER_CHILD_OUTPUT with
      | panicked => rw [e1] at h; try simp only [] at h; exact RustResult.noConfusion h
      | err e => rw [e1] at h; try simp only [] at h; exact RustResult.noConfusion h
      | ok child_output_stdout =>
        rw [e1] at h; try simp only [] at h
        cases e2 : extract_marker output.stderr MARKER_CHILD_OUTPUT with
        | panicked => rw [e2] at h; try simp only [] at h; exact RustResult.noConfusion h
        | err e => rw [e2] at h; try simp only [] at h; exact RustResult.noConfusion h
        | ok child_output_stderr =>
          rw [e2] at h; try simp only [] at h
          cases e3 : extract_marker output.stdout MARKER_BACKTRACE with
          | panicked => rw [e3] at h; try simp only [] at h; exact RustResult.noConfusion h
          | err e => rw [e3] at h; try simp only [] at h; exact RustResult.noConfusion h
          | ok backtrace_output =>
            rw [e3] at h; try simp only [] at h
            cases e4 : extract_marker output.stderr MARKER_BACKTRACE with
            | panicked => rw [e4] at h; try simp only [] at h; exact RustResult.noConfusion h
            | err e => rw [e4] at h; try simp only [] at h; exact RustResult.noConfusion h
            | ok backtrace_errors =>
              rw [e4] at h; try simp only [] at h
              cases e5 : backtrace_errors.isEmpty with
              | false =>
                rw [e5] at h
                simp only [Bool.not_false, if_true] at h
                exact RustResult.noConfusion h
              | true =>
                rw [e5] at h
                simp only [Bool.not_true, Bool.false_eq_true, if_false] at h
                cases e6 : parse backtrace_output with
                | error e => rw [e6] at h; try simp only [] at h; exact RustResult.noConfusion h
                | ok json =>
                  rw [e6] at h; try simp only [] at h
                  cases h
                  rfl

set_option maxRecDepth 100000 in
/-- C10 (witness): the placeholder status at the concrete successful
end-to-end run. -/
theorem C10_status_code_placeholder_witness :
    (⟨⟨1, [⟨1, []⟩]⟩, ⟨strB "hello\n", strB "", 0⟩⟩ : GdbTriageResult).child.status_code = 0 :=
  C10_status_code_placeholder parse_response
    (fun _ _ => .ok ⟨sampleStdout, sampleStderr, true⟩)
    ⟨.Internal (strB "/tmp/triage.py"), strB "gdb"⟩ [strB "./prog"] false
    ⟨⟨1, [⟨1, []⟩]⟩, ⟨strB "hello\n", strB "", 0⟩⟩ (by decide)
